import Mathlib

/-!
Verification of the Delphi consensus pipeline (TypeScript repository) against its
natural-language specification.  The definitions below are a shallow embedding of
the relevant source functions:

* `src/utils/convergence-tracker.ts` — `ConvergenceTracker` and its metric
  computations;
* `src/agents/orchestrator.ts` (shipped inside `src/prompts/contrarian_prompt.md`)
  — `processClusters`, the `average_confidence` computation of `synthesizeRound`,
  and `identifyDominantClusters`;
* `src/main.ts` — `identifyDissentingViews` and the final-report wiring;
* `src/utils/openai-helpers.ts` — `safeChatCompletion`;
* `src/tools/perplexity.ts` — `PerplexityTool.search` and its axios response
  interceptor.

JavaScript numbers are modelled as rationals (`ℚ`); where the source can produce
`NaN` (division `0/0`) the embedding either returns `Option ℚ` (`none` = NaN) or
notes in a comment that the rational result agrees with the source's observable
comparison behaviour (`NaN > x` is `false`, as is `0 > x` for the thresholds
involved).  JavaScript `Map`s are modelled as insertion-ordered association
lists, and JavaScript objects with optional fields as structures with `Option`
fields.
-/

namespace Delphi

/-- `Citation` from `src/types/index.ts`: `title`, `url`, optional `date` and
`relevance`. -/
structure Citation where
  title : String
  url : String
  date : Option String
  relevance : Option String
deriving DecidableEq, Repr

/-- `ExpertResponse` from `src/types/index.ts` (the zod schema's field set). -/
structure ExpertResponse where
  position : String
  reasoning : String
  confidence : ℚ
  sources : List Citation
  expertise_area : String
  agent_id : String
deriving DecidableEq, Repr

/-- `ExpertCluster` from `src/types/index.ts`. -/
structure ExpertCluster where
  theme : String
  positions : List String
  expert_ids : List String
  confidence_range : ℚ × ℚ
  supporting_sources : List Citation
deriving DecidableEq, Repr

/-- `RoundSynthesis` from `src/types/index.ts`. -/
structure RoundSynthesis where
  round_number : Nat
  clusters : List ExpertCluster
  consensus_areas : List String
  divergence_areas : List String
  average_confidence : ℚ
  participation_count : Nat
  key_insights : List String
deriving DecidableEq, Repr

/-- The private state of `ConvergenceTracker`: `roundHistory` is the array of
syntheses, `expertHistories` the insertion-ordered `Map` from `agent_id` to that
expert's responses. -/
structure TrackerState where
  roundHistory : List RoundSynthesis
  expertHistories : List (String × List ExpertResponse)
deriving DecidableEq, Repr

/-- The fresh tracker (`new ConvergenceTracker()`). -/
def TrackerState.init : TrackerState := { roundHistory := [], expertHistories := [] }

/-- One step of the `expertResponses.forEach` body of `addRound`: create the
map entry if absent, then push the response onto that expert's history. -/
def pushHistory (hs : List (String × List ExpertResponse)) (r : ExpertResponse) :
    List (String × List ExpertResponse) :=
  if hs.any (fun p => p.1 = r.agent_id) then
    hs.map (fun p => if p.1 = r.agent_id then (p.1, p.2 ++ [r]) else p)
  else
    hs ++ [(r.agent_id, [r])]

/-- `ConvergenceTracker.addRound`: append the synthesis to `roundHistory` and
record each response under its `agent_id`. -/
def addRound (st : TrackerState) (synthesis : RoundSynthesis)
    (expertResponses : List ExpertResponse) : TrackerState :=
  { roundHistory := st.roundHistory ++ [synthesis]
    expertHistories := expertResponses.foldl pushHistory st.expertHistories }

/-- Whitespace splitter over the character list, modelling
`split(/\s+/)`: this splits at every whitespace character (producing empty
fragments inside whitespace runs where the regex would not), which is
indistinguishable after the `word.length > 3` filter applied below. -/
def splitWsAux : List Char → List Char → List String
  | [], acc => [String.mk acc.reverse]
  | c :: cs, acc =>
    if c.isWhitespace then String.mk acc.reverse :: splitWsAux cs []
    else splitWsAux cs (c :: acc)

/-- Split a character list into whitespace-separated fragments. -/
def splitWs (l : List Char) : List String := splitWsAux l []

/-- The bag-of-words token set of a position, as built in
`calculatePositionStability`: lowercase (`toLowerCase`, ASCII case mapping
suffices for this development), split on whitespace, keep words longer than 3
characters, collect into a `Set` (modelled as a deduplicated list). -/
def tokenSet (s : String) : List String :=
  ((splitWs (s.data.map Char.toLower)).filter (fun w => w.length > 3)).dedup

/-- The per-expert stability test of `calculatePositionStability`:
`overlap.size / Math.max(lastWords.size, previousWords.size) > 0.7`.
When both token sets are empty the source computes `0/0` (`NaN`) and
`NaN > 0.7` is `false`; rational division gives `0/0 = 0` there and
`0 > 0.7` is likewise `false`, so the decision agrees on every input. -/
def wordOverlapStable (lastPos prevPos : String) : Bool :=
  let lastWords := tokenSet lastPos
  let previousWords := tokenSet prevPos
  let overlap := lastWords.filter (fun w => previousWords.contains w)
  ((overlap.length : ℚ) / (max lastWords.length previousWords.length : ℚ)) > 7/10

/-- The most recent two responses of a history (`history[len-1]`,
`history[len-2]`), when the history has at least two entries. -/
def lastTwo (l : List ExpertResponse) : Option (ExpertResponse × ExpertResponse) :=
  match l.reverse with
  | lastR :: prevR :: _ => some (lastR, prevR)
  | _ => none

/-- The body of the `expertHistories.forEach` of `calculatePositionStability`
for one expert: counted as stable when the history has two entries and the
last two positions pass `wordOverlapStable`. -/
def stableCheck (p : String × List ExpertResponse) : Bool :=
  match lastTwo p.2 with
  | some (lastR, prevR) => wordOverlapStable lastR.position prevR.position
  | none => false

/-- `ConvergenceTracker.calculatePositionStability`. -/
def calculatePositionStability (st : TrackerState) : ℚ :=
  if st.roundHistory.length < 2 then 1
  else
    let eligible := st.expertHistories.filter (fun p => p.2.length ≥ 2)
    let stable := eligible.filter stableCheck
    if eligible.length > 0 then (stable.length : ℚ) / (eligible.length : ℚ) else 1

/-- The variance computed by `ConvergenceTracker.calculateConfidenceSpread`
before its final `Math.sqrt` (the square root of a rational is irrational in
general; no claim depends on the rooted value, so the embedding exposes the
variance). -/
def confidenceSpreadVariance (st : TrackerState) : ℚ :=
  match st.roundHistory.getLast? with
  | none => 0
  | some currentRound =>
    let confidenceScores := currentRound.clusters.map
      (fun c => (c.confidence_range.1 + c.confidence_range.2) / 2)
    if confidenceScores.length = 0 then 0
    else
      let mean := confidenceScores.sum / (confidenceScores.length : ℚ)
      (confidenceScores.map (fun s => (s - mean) ^ 2)).sum / (confidenceScores.length : ℚ)

/-- `ConvergenceTracker.calculateConsensusClarity`. -/
def calculateConsensusClarity (st : TrackerState) : ℚ :=
  match st.roundHistory.getLast? with
  | none => 0
  | some currentRound =>
    let consensusFrac := (currentRound.consensus_areas.length : ℚ) /
      (max 1 (currentRound.consensus_areas.length + currentRound.divergence_areas.length) : ℚ)
    let maxClusterSize : Nat :=
      (currentRound.clusters.map (fun c => c.expert_ids.length)).foldl max 0
    let dominanceFrac := (maxClusterSize : ℚ) / (max 1 currentRound.participation_count : ℚ)
    let confidenceFrac := currentRound.average_confidence / 10
    consensusFrac * (4/10) + dominanceFrac * (3/10) + confidenceFrac * (3/10)

/-- Re-normalisation applied in `calculateCitationOverlap` when converting a
source to "proper Citation format": `date: source.date || undefined` maps the
falsy empty string to `undefined`; likewise for `relevance`. -/
def jsOrUndefined : Option String → Option String
  | some s => if s = "" then none else some s
  | none => none

/-- The citation list extracted from one expert's most recent response in
`calculateCitationOverlap`. -/
def latestCitations (history : List ExpertResponse) : Option (List Citation) :=
  match history.getLast? with
  | none => none
  | some latestResponse =>
    some (latestResponse.sources.map (fun source =>
      { title := source.title
        url := source.url
        date := jsOrUndefined source.date
        relevance := jsOrUndefined source.relevance }))

/-- The `Set` of URLs of one expert's citation list. -/
def urlSet (citations : List Citation) : List String :=
  (citations.map (fun c => c.url)).dedup

/-- Whether two URL sets intersect at all (the binary per-pair test of
`calculateCitationOverlap`). -/
def setsIntersect (a b : List String) : Bool :=
  a.any (fun url => b.contains url)

/-- The number of unordered pairs `i < j` whose URL sets intersect, mirroring
the double loop of `calculateCitationOverlap`. -/
def countOverlappingPairs : List (List Citation) → Nat
  | [] => 0
  | c :: rest =>
    rest.countP (fun d => setsIntersect (urlSet c) (urlSet d)) + countOverlappingPairs rest

/-- The number of unordered pairs visited by the same double loop. -/
def countTotalPairs : List (List Citation) → Nat
  | [] => 0
  | _ :: rest => rest.length + countTotalPairs rest

/-- The `expertCitations` array accumulated by `calculateCitationOverlap`: one
entry per tracked expert with a non-empty history. -/
def expertCitationsOf (st : TrackerState) : List (List Citation) :=
  st.expertHistories.filterMap (fun p => latestCitations p.2)

/-- `ConvergenceTracker.calculateCitationOverlap`. -/
def calculateCitationOverlap (st : TrackerState) : ℚ :=
  if st.expertHistories.length = 0 then 0
  else
    let expertCitations : List (List Citation) := expertCitationsOf st
    if expertCitations.length < 2 then 1
    else
      let totalPossiblePairs := countTotalPairs expertCitations
      let overlappingPairs := countOverlappingPairs expertCitations
      if totalPossiblePairs > 0 then
        (overlappingPairs : ℚ) / (totalPossiblePairs : ℚ)
      else 0

/-! ## OrchestratorAgent (src/agents/orchestrator.ts) -/

/-- A raw cluster as parsed from the clustering generation call in
`synthesizeRound`.  `theme` may be absent or falsy, `positions` absent, and
`expert_ids` absent or not an array (both modelled as `none`). -/
structure RawCluster where
  theme : Option String
  positions : Option (List String)
  expert_ids : Option (List String)
deriving DecidableEq, Repr

/-- `averageConfidence` as computed in `OrchestratorAgent.synthesizeRound`
(line 188): `confidenceScores.reduce((sum, score) => sum + score, 0) /
confidenceScores.length`.  For the empty list the source divides `0 / 0`,
which is `NaN` in JavaScript; `NaN` is modelled as `none`. -/
def averageConfidence (confidenceScores : List ℚ) : Option ℚ :=
  if confidenceScores.length = 0 then none
  else some (confidenceScores.sum / (confidenceScores.length : ℚ))

/-- The `average_confidence` of a round as `synthesizeRound` derives it from
the expert responses. -/
def roundAverageConfidence (expertResponses : List ExpertResponse) : Option ℚ :=
  averageConfidence (expertResponses.map (fun r => r.confidence))

/-- One step of the supporting-source collection loop in `processClusters`:
push the source unless a source with the same `url` is already present,
defaulting a falsy `relevance` to `"Supporting evidence"`. -/
def addSupportingSource (acc : List Citation) (source : Citation) : List Citation :=
  if acc.any (fun existing => existing.url = source.url) then acc
  else
    acc ++ [{ title := source.title
              url := source.url
              date := source.date
              relevance :=
                match source.relevance with
                | some r => if r = "" then some "Supporting evidence" else some r
                | none => some "Supporting evidence" }]

/-- The supporting sources of a cluster: every matched expert's sources,
deduplicated by URL in encounter order. -/
def collectSupportingSources (clusterExperts : List ExpertResponse) : List Citation :=
  clusterExperts.foldl (fun acc expert => expert.sources.foldl addSupportingSource acc) []

/-- The body of the `rawClusters.forEach` loop of
`OrchestratorAgent.processClusters` for a single raw cluster: `none` models the
`return` (skip) paths — invalid cluster data, or no matching experts. -/
def processOneCluster (rawCluster : RawCluster) (expertResponses : List ExpertResponse) :
    Option ExpertCluster :=
  match rawCluster.theme, rawCluster.expert_ids with
  | some theme, some ids =>
    if theme = "" then none
    else
      let clusterExperts := expertResponses.filter (fun response => ids.contains response.agent_id)
      match clusterExperts.map (fun expert => expert.confidence) with
      | [] => none
      | c :: cs =>
        some { theme := theme
               positions := rawCluster.positions.getD (clusterExperts.map (fun e => e.position))
               expert_ids := ids
               confidence_range := (cs.foldl min c, cs.foldl max c)
               supporting_sources := (collectSupportingSources clusterExperts).take 10 }
  | _, _ => none

/-- `OrchestratorAgent.processClusters`: the `forEach`/`push` loop is a
`filterMap` over the raw clusters. -/
def processClusters (rawClusters : List RawCluster) (expertResponses : List ExpertResponse) :
    List ExpertCluster :=
  rawClusters.filterMap (fun rawCluster => processOneCluster rawCluster expertResponses)

/-- The comparator passed to `synthesis.clusters.sort` in
`identifyDominantClusters`: larger clusters first, ties broken by higher
average of the confidence range. -/
def clusterCmp (a b : ExpertCluster) : ℚ :=
  if a.expert_ids.length ≠ b.expert_ids.length then
    (b.expert_ids.length : ℚ) - (a.expert_ids.length : ℚ)
  else
    (b.confidence_range.1 + b.confidence_range.2) / 2
      - (a.confidence_range.1 + a.confidence_range.2) / 2

/-- Stable insertion step: `x` is placed after every earlier element `y` with
`cmp y x ≤ 0`, which reproduces the order produced by JavaScript's stable
`Array.prototype.sort` for a consistent comparator. -/
def insertByCmp {α : Type} (cmp : α → α → ℚ) (x : α) : List α → List α
  | [] => [x]
  | y :: ys => if cmp y x ≤ 0 then y :: insertByCmp cmp x ys else x :: y :: ys

/-- Stable sort modelling `Array.prototype.sort(comparator)` (stable per the
ECMAScript specification). -/
def jsStableSort {α : Type} (cmp : α → α → ℚ) (l : List α) : List α :=
  l.foldl (fun acc x => insertByCmp cmp x acc) []

/-- `OrchestratorAgent.identifyDominantClusters`.  The source sorts
`synthesis.clusters` **in place** (`Array.prototype.sort` mutates its
receiver), so the embedding returns both the list of themes and the synthesis
object as it is left after the call. -/
def identifyDominantClusters (synthesis : RoundSynthesis) :
    List String × RoundSynthesis :=
  if synthesis.clusters.length = 0 then ([], synthesis)
  else
    let sortedClusters := jsStableSort clusterCmp synthesis.clusters
    ((sortedClusters.take 3).map (fun cluster => cluster.theme),
      { synthesis with clusters := sortedClusters })

/-! ## DelphiAgent final-report wiring (src/main.ts) -/

/-- An entry of `DelphiReport.dissenting_views`. -/
structure DissentView where
  position : String
  expert_ids : List String
  reasoning : String
  sources : List Citation
deriving DecidableEq, Repr

/-- The `expert_ids` of the largest cluster as computed at the top of
`DelphiAgent.identifyDissentingViews`: `reduce` with the first cluster as the
initial accumulator, keeping the strictly larger of the two at each step; the
default object `{ expert_ids: [] }` when there are no clusters. -/
def largestClusterIds (synthesis : RoundSynthesis) : List String :=
  match synthesis.clusters with
  | [] => []
  | c0 :: _ =>
    (synthesis.clusters.foldl
      (fun largest current =>
        if current.expert_ids.length > largest.expert_ids.length then current else largest)
      c0).expert_ids

/-- The record built for each dissenting expert. -/
def mkDissentView (expert : ExpertResponse) : DissentView :=
  { position := expert.position
    expert_ids := [expert.agent_id]
    reasoning := expert.reasoning
    sources := expert.sources }

/-- `DelphiAgent.identifyDissentingViews`. -/
def identifyDissentingViews (synthesis : RoundSynthesis)
    (responses : List ExpertResponse) : List DissentView :=
  let largestIds := largestClusterIds synthesis
  let dissentingExperts := responses.filter (fun response => !largestIds.contains response.agent_id)
  if dissentingExperts.length = 0 then []
  else dissentingExperts.map mkDissentView

/-- The per-round results accumulated by `runDelphiProcess` (the fields used by
the final-report assembly). -/
structure RoundResult where
  expertResponses : List ExpertResponse
  synthesis : RoundSynthesis
deriving DecidableEq, Repr

/-- The `dissenting_views` field of the final report as assembled by
`DelphiAgent.generateFinalReportWithSupport`: `identifyDissentingViews` applied
to the *final* round's synthesis but to the expert responses of **all** rounds
(`roundResults.flatMap(r => r.expertResponses)`).  The source indexes
`roundResults[roundResults.length - 1]`, only ever called with at least one
round; the empty case is mapped to `[]`. -/
def reportDissentingViews (roundResults : List RoundResult) : List DissentView :=
  match roundResults.getLast? with
  | none => []
  | some finalRound =>
    identifyDissentingViews finalRound.synthesis
      (roundResults.foldr (fun r acc => r.expertResponses ++ acc) [])

/-! ## safeChatCompletion (src/utils/openai-helpers.ts) -/

/-- The request fields read or rewritten by `safeChatCompletion`.  The message
list and other pass-through fields play no role in the wrapper's logic and are
omitted; absent JSON keys are `none`. -/
structure ChatRequest where
  model : String
  temperature : Option ℚ
  max_tokens : Option Nat
  max_completion_tokens : Option Nat
deriving DecidableEq, Repr

/-- A chat message in a completion response; `content` may be absent. -/
structure ChatMessageOut where
  content : Option String
deriving DecidableEq, Repr

/-- A completion choice; `message` may be absent. -/
structure ChatChoice where
  message : Option ChatMessageOut
deriving DecidableEq, Repr

/-- A chat completion response. -/
structure ChatCompletion where
  choices : List ChatChoice
deriving DecidableEq, Repr

/-- The error object thrown by the completions client, with the fields the
wrapper inspects (`err?.code || err?.error?.code` is collapsed into one
optional `code`, likewise `param`; `err?.message || String(err)` into
`message`). -/
structure ApiError where
  code : Option String
  param : Option String
  message : String
deriving DecidableEq, Repr

/-- Whether list `pre` occurs at the head of list `l`. -/
def leadsWith : List Char → List Char → Bool
  | [], _ => true
  | _ :: _, [] => false
  | a :: as, b :: bs => a = b && leadsWith as bs

/-- Occurrence of `pre` anywhere in `l`. -/
def occursIn (pre : List Char) : List Char → Bool
  | [] => leadsWith pre []
  | c :: cs => leadsWith pre (c :: cs) || occursIn pre cs

/-- JavaScript `haystack.includes(needle)`. -/
def strContains (haystack needle : String) : Bool :=
  occursIn needle.data haystack.data

/-- The generation service as seen by `safeChatCompletion`: a deterministic
oracle giving the outcome of the `n`-th `openai.chat.completions.create` call
issued during one `safeChatCompletion` invocation. -/
def ChatService : Type := Nat → ChatRequest → Except ApiError ChatCompletion

/-- Negation of the `noChoices || noMessage || noContent` test in `runOnce`:
the first choice exists, has a message, and its content trims to a non-empty
string. -/
def hasUsableText (res : ChatCompletion) : Bool :=
  match res.choices with
  | [] => false
  | choice :: _ =>
    match choice.message with
    | none => false
    | some message =>
      match message.content with
      | none => false
      | some content => !(content.trim = "")

/-- The `runOnce` closure: issue one create call; on an empty-looking success
with a truthy model that is not already `"gpt-4o"`, set `r.model = 'gpt-4o'`
(mutating the loop's request) and issue one more call, returning its outcome
unvalidated.  Returns the outcome, the request as left after the call, and the
next call counter. -/
def runOnce (service : ChatService) (k : Nat) (r : ChatRequest) :
    Except ApiError ChatCompletion × ChatRequest × Nat :=
  match service k r with
  | Except.error e => (Except.error e, r, k + 1)
  | Except.ok res =>
    if hasUsableText res then (Except.ok res, r, k + 1)
    else if r.model ≠ "" ∧ r.model ≠ "gpt-4o" then
      let r2 := { r with model := "gpt-4o" }
      (service (k + 1) r2, r2, k + 2)
    else (Except.ok res, r, k + 1)

/-- The request transformations of the catch cascade in `safeChatCompletion`. -/
inductive ReqTransform where
  | dropTemperature
  | maxTokensToMaxCompletionTokens
  | maxCompletionTokensToMaxTokens
  | fallbackModel
  | rethrow
deriving DecidableEq, Repr

/-- Equality test of an optional error field against a literal, as the source's
strict `===` on a possibly-undefined property. -/
def optEq (o : Option String) (s : String) : Bool :=
  match o with
  | some v => v = s
  | none => false

/-- The catch-block classification cascade of `safeChatCompletion`, evaluated
against the error and the current request `r`. -/
def classifyError (e : ApiError) (r : ChatRequest) : ReqTransform :=
  let code := e.code
  let param := e.param
  let msg := e.message.toLower
  if (optEq code "unsupported_value" || strContains msg "unsupported"
        || strContains msg "does not support")
      && (optEq param "temperature" || strContains msg "temperature")
      && r.temperature.isSome then
    ReqTransform.dropTemperature
  else if (optEq code "unsupported_parameter" || strContains msg "unsupported parameter")
      && (optEq param "max_tokens" || strContains msg "max_tokens")
      && r.max_tokens.isSome then
    ReqTransform.maxTokensToMaxCompletionTokens
  else if (optEq code "unsupported_parameter" || strContains msg "unsupported parameter")
      && (optEq param "max_completion_tokens" || strContains msg "max_completion_tokens")
      && r.max_completion_tokens.isSome then
    ReqTransform.maxCompletionTokensToMaxTokens
  else if optEq param "model" || optEq code "model_not_found"
      || (strContains msg "model"
          && (strContains msg "not found" || strContains msg "does not exist"
              || strContains msg "unknown" || strContains msg "unsupported")) then
    ReqTransform.fallbackModel
  else if strContains msg "responses api" || strContains msg "use the responses"
      || strContains msg "responses endpoint" then
    ReqTransform.fallbackModel
  else
    ReqTransform.rethrow

/-- Application of a classified transformation to the loop's request. -/
def applyTransform : ReqTransform → ChatRequest → ChatRequest
  | ReqTransform.dropTemperature, r => { r with temperature := none }
  | ReqTransform.maxTokensToMaxCompletionTokens, r =>
      { r with max_tokens := none, max_completion_tokens := r.max_tokens }
  | ReqTransform.maxCompletionTokensToMaxTokens, r =>
      { r with max_completion_tokens := none, max_tokens := r.max_completion_tokens }
  | ReqTransform.fallbackModel, r => { r with model := "gpt-4o" }
  | ReqTransform.rethrow, r => r

/-- The three ways a `safeChatCompletion` call can end: a returned response, a
rethrown service error, or the final
`Error('safeChatCompletion failed after multiple transformation attempts.')`. -/
inductive SafeOutcome where
  | ok (res : ChatCompletion)
  | thrown (e : ApiError)
  | exhausted
deriving DecidableEq, Repr

/-- The `for (attempt = 0; attempt < 5; attempt++)` transformation loop.
`caller` is the caller's request object: the source clones it
(`let r = { ...req }`) before the loop, and every mutation targets the clone
`r`, so `caller` is threaded through unchanged and handed back at every exit
point. -/
def safeLoop (service : ChatService) :
    Nat → Nat → ChatRequest → ChatRequest → SafeOutcome × ChatRequest
  | 0, _, caller, _ => (SafeOutcome.exhausted, caller)
  | attempt + 1, k, caller, r =>
    match runOnce service k r with
    | (Except.ok res, _, _) => (SafeOutcome.ok res, caller)
    | (Except.error e, r1, k1) =>
      match classifyError e r1 with
      | ReqTransform.rethrow => (SafeOutcome.thrown e, caller)
      | t => safeLoop service attempt k1 caller (applyTransform t r1)

/-- `safeChatCompletion`: five transformation attempts over the cloned request,
returning the outcome together with the caller's request object after the
call. -/
def safeChatCompletion (service : ChatService) (req : ChatRequest) :
    SafeOutcome × ChatRequest :=
  safeLoop service 5 0 req req

/-! ## PerplexityTool.search (src/tools/perplexity.ts) -/

/-- The part of an axios error response inspected by `search` and the response
interceptor: the HTTP status and the optional `data.error` payload field. -/
structure AxiosErrResponse where
  status : Nat
  dataError : Option String
deriving DecidableEq, Repr

/-- The outcome of one raw `this.client.post` HTTP exchange, before the
response interceptor runs: either parsed response data (abstract here — payload
extraction is pure and independent of the retry loop), or an axios error
carrying a message and, for HTTP errors, the error response. -/
inductive AxiosOutcome (α : Type) where
  | success (data : α)
  | failure (message : String) (response : Option AxiosErrResponse)
deriving DecidableEq, Repr

/-- The error object thrown into `search`'s catch block.  Errors produced by
the response interceptor are plain `new Error(...)` values, so their `response`
field is `none`. -/
structure JsError where
  message : String
  response : Option AxiosErrResponse
deriving DecidableEq, Repr

/-- JavaScript `error.response?.data?.error || error.message`: the `data.error`
string when present and truthy, else the error's own message. -/
def errDetail (message : String) (response : Option AxiosErrResponse) : String :=
  match response with
  | some r =>
    match r.dataError with
    | some s => if s = "" then message else s
    | none => message
  | none => message

/-- The axios response interceptor installed in the `PerplexityTool`
constructor: passes successes through and replaces every error with
`new Error('Perplexity API failed: ...')` — a plain error without a `response`
property. -/
def interceptOutcome {α : Type} : AxiosOutcome α → Except JsError α
  | AxiosOutcome.success data => Except.ok data
  | AxiosOutcome.failure message response =>
    Except.error
      { message := "Perplexity API failed: " ++ errDetail message response
        response := none }

/-- The retry test in `search`'s catch block: `isTimeout` when the (truthy)
message contains `'timeout'`; `is5xx` when the error has a `response` with a
5xx status. -/
def retryableError (e : JsError) : Bool :=
  let isTimeout := !(e.message = "") && strContains e.message "timeout"
  let is5xx :=
    match e.response with
    | some r => decide (500 ≤ r.status) && decide (r.status < 600)
    | none => false
  isTimeout || is5xx

/-- The error thrown by the non-retry path of the catch block:
`new Error('Perplexity API failed: ' + (error.response?.data?.error || error.message))`. -/
def rewrapError (e : JsError) : JsError :=
  { message := "Perplexity API failed: " ++ errDetail e.message e.response
    response := none }

/-- The result of a `PerplexityTool.search` call in the embedding: the outcome,
the list of backoff sleeps performed (milliseconds), and the number of HTTP
requests issued. -/
structure SearchTrace (α : Type) where
  result : Except JsError α
  sleeps : List Nat
  calls : Nat
deriving Repr

/-- The `while (attempt < maxRetries)` loop of `PerplexityTool.search`, with
`maxRetries = 3`.  `remaining = maxRetries - attempt` drives the recursion;
`oracle n` is the outcome of the `n`-th HTTP request.  On a retryable error
with `attempt < maxRetries - 1` the loop sleeps `1000 * 2 ^ attempt`
milliseconds and retries; any other error is rethrown wrapped; if the loop
guard ever failed the source would throw the final "after 3 attempts" error
(that path is unreachable since `attempt` only reaches `maxRetries - 1`). -/
def searchGo {α : Type} (oracle : Nat → AxiosOutcome α) (maxRetries : Nat) :
    (remaining attempt : Nat) → (sleeps : List Nat) → (calls : Nat) →
    (lastError : Option JsError) → SearchTrace α
  | 0, _, sleeps, calls, lastError =>
    { result := Except.error
        { message := "Perplexity API failed after " ++ toString maxRetries ++ " attempts: "
            ++ (match lastError with | some e => e.message | none => "null")
          response := none }
      sleeps := sleeps
      calls := calls }
  | remaining + 1, attempt, sleeps, calls, _ =>
    match interceptOutcome (oracle attempt) with
    | Except.ok data => { result := Except.ok data, sleeps := sleeps, calls := calls + 1 }
    | Except.error e =>
      if retryableError e ∧ attempt < maxRetries - 1 then
        searchGo oracle maxRetries remaining (attempt + 1)
          (sleeps ++ [1000 * 2 ^ attempt]) (calls + 1) (some e)
      else
        { result := Except.error (rewrapError e), sleeps := sleeps, calls := calls + 1 }

/-- `PerplexityTool.search` restricted to its retry skeleton: `maxRetries = 3`,
starting at `attempt = 0` with no sleeps performed. -/
def perplexitySearch {α : Type} (oracle : Nat → AxiosOutcome α) : SearchTrace α :=
  searchGo oracle 3 3 0 [] 0 none

/-! ## Validation and concrete fixtures -/

/-- The strict `ExpertResponseSchema` checks from `src/types/index.ts`:
`position` at least 10 characters, `reasoning` at least 50, `confidence` in
`[1, 10]`, at least one source, each with a well-formed URL.  URL
well-formedness (`z.string().url()`, a WHATWG URL parse in the source) is
modelled as an explicit http/https scheme check, sufficient for every URL
appearing in this development. -/
def wellFormedUrl (u : String) : Bool :=
  (leadsWith "https://".data u.data && decide (8 < u.length))
    || (leadsWith "http://".data u.data && decide (7 < u.length))

/-- Decidable form of the `ExpertResponseSchema` validation. -/
def validExpertResponse (r : ExpertResponse) : Bool :=
  decide (10 ≤ r.position.length) && decide (50 ≤ r.reasoning.length)
    && decide ((1 : ℚ) ≤ r.confidence) && decide (r.confidence ≤ 10)
    && decide (1 ≤ r.sources.length) && r.sources.all (fun s => wellFormedUrl s.url)

/-- Concrete citation with URL `u1`. -/
def citeU1 : Citation :=
  { title := "S1", url := "https://example.com/u1", date := none, relevance := none }

/-- Concrete citation with URL `u2`. -/
def citeU2 : Citation :=
  { title := "S2", url := "https://example.com/u2", date := none, relevance := none }

/-- Concrete citation with URL `u3`. -/
def citeU3 : Citation :=
  { title := "S3", url := "https://example.com/u3", date := none, relevance := none }

/-- Concrete citation with URL `u4`. -/
def citeU4 : Citation :=
  { title := "S4", url := "https://example.com/u4", date := none, relevance := none }

/-- A reasoning string meeting the 50-character schema minimum. -/
def longReasoning : String :=
  "This reasoning text is certainly longer than fifty characters in total."

/-- Expert `expert-a` with a given source list. -/
def respA (srcs : List Citation) : ExpertResponse :=
  { position := "first expert position about the question"
    reasoning := longReasoning
    confidence := 7
    sources := srcs
    expertise_area := "area-a"
    agent_id := "expert-a" }

/-- Expert `expert-b` with a given source list. -/
def respB (srcs : List Citation) : ExpertResponse :=
  { position := "second expert position about the question"
    reasoning := longReasoning
    confidence := 8
    sources := srcs
    expertise_area := "area-b"
    agent_id := "expert-b" }

/-- A synthesis with no clusters and no consensus/divergence areas, as
produced for a round in which clustering yielded nothing. -/
def synEmpty (n : Nat) : RoundSynthesis :=
  { round_number := n, clusters := [], consensus_areas := [], divergence_areas := []
    average_confidence := 7, participation_count := 0, key_insights := [] }

/-- A schema-valid expert response whose position consists solely of words of
at most 3 characters (13 characters in total, so the 10-character minimum
holds). -/
def shortWordResp : ExpertResponse :=
  { position := "aa bbb ccc dd"
    reasoning := longReasoning
    confidence := 7
    sources := [citeU1]
    expertise_area := "area-a"
    agent_id := "expert-a" }

/-- Two recorded rounds in which `expert-a` submitted the identical
short-word position both times. -/
def stShortWords : TrackerState :=
  addRound (addRound TrackerState.init (synEmpty 1) [shortWordResp])
    (synEmpty 2) [shortWordResp]

/-- The single expert response used for the stability witnesses. -/
def okResp : ExpertResponse := respA [citeU1]

/-- Two recorded rounds in which `expert-a` submitted the identical ordinary
position both times. -/
def stIdentical : TrackerState :=
  { roundHistory := [synEmpty 1, synEmpty 2]
    expertHistories := [("expert-a", [okResp, okResp])] }

/-- A response of `expert-a` whose vocabulary is disjoint from `okResp`. -/
def otherResp : ExpertResponse :=
  { position := "completely different wording everywhere now"
    reasoning := longReasoning
    confidence := 6
    sources := [citeU2]
    expertise_area := "area-a"
    agent_id := "expert-a" }

/-- Two recorded rounds in which `expert-a` changed to a disjoint-vocabulary
position. -/
def stChanged : TrackerState :=
  { roundHistory := [synEmpty 1, synEmpty 2]
    expertHistories := [("expert-a", [okResp, otherResp])] }

/-- Tracker state with two experts whose latest source URL sets are
disjoint (the spec's `A = [u1, u2]`, `B = [u3]` example). -/
def stDisjointUrls : TrackerState :=
  { roundHistory := [synEmpty 1]
    expertHistories := [("expert-a", [respA [citeU1, citeU2]]), ("expert-b", [respB [citeU3]])] }

/-- Tracker state with two experts sharing the URL `u1` (the spec's
`B = [u1, u4]` example). -/
def stSharedUrls : TrackerState :=
  { roundHistory := [synEmpty 1]
    expertHistories := [("expert-a", [respA [citeU1, citeU2]]), ("expert-b", [respB [citeU1, citeU4]])] }

/-- A cluster containing all five expert ids of the `consensus_clarity`
scenario. -/
def cluster5 : ExpertCluster :=
  { theme := "T", positions := ["p"], expert_ids := ["e1", "e2", "e3", "e4", "e5"]
    confidence_range := (7, 9), supporting_sources := [] }

/-- The scenario round: 5 experts, one cluster of all 5, one consensus area,
no divergence areas, average confidence 8. -/
def syn94 : RoundSynthesis :=
  { round_number := 1, clusters := [cluster5], consensus_areas := ["agreement"]
    divergence_areas := [], average_confidence := 8, participation_count := 5
    key_insights := [] }

/-- Tracker state holding the scenario round. -/
def st94 : TrackerState := { roundHistory := [syn94], expertHistories := [] }

/-- The scenario round with an empty consensus-areas list. -/
def syn54 : RoundSynthesis := { syn94 with consensus_areas := [] }

/-- Tracker state holding the empty-consensus variant. -/
def st54 : TrackerState := { roundHistory := [syn54], expertHistories := [] }

/-- A raw cluster naming both a real expert and a non-existent one. -/
def rawGhost : RawCluster :=
  { theme := some "T", positions := none, expert_ids := some ["expert-a", "ghost"] }

/-- A round result whose synthesis has no clusters at all. -/
def rrNoCluster : RoundResult :=
  { expertResponses := [respA [citeU1]], synthesis := synEmpty 1 }

/-- A one-expert cluster with low confidence. -/
def clusterSmall : ExpertCluster :=
  { theme := "small", positions := [], expert_ids := ["e1"]
    confidence_range := (5, 5), supporting_sources := [] }

/-- A two-expert cluster. -/
def clusterBig : ExpertCluster :=
  { theme := "big", positions := [], expert_ids := ["e2", "e3"]
    confidence_range := (6, 6), supporting_sources := [] }

/-- A synthesis whose clusters array is not in dominant order (the smaller
cluster first). -/
def synOutOfOrder : RoundSynthesis :=
  { round_number := 1, clusters := [clusterSmall, clusterBig], consensus_areas := []
    divergence_areas := [], average_confidence := 7, participation_count := 3
    key_insights := [] }

/-- A completion whose `choices` array is empty. -/
def emptyCompletion : ChatCompletion := { choices := [] }

/-- A completion with usable text. -/
def goodCompletion : ChatCompletion :=
  { choices := [{ message := some { content := some "hello" } }] }

/-- A generation service that answers every call with the empty-choices
completion. -/
def svcAlwaysEmpty : ChatService := fun _ _ => Except.ok emptyCompletion

/-- A request already addressed to the fallback model. -/
def reqFallback : ChatRequest :=
  { model := "gpt-4o", temperature := none, max_tokens := none, max_completion_tokens := none }

/-- A generation service whose first call returns the empty completion and
whose later calls return the good one. -/
def svcEmptyThenGood : ChatService := fun k _ =>
  if k = 0 then Except.ok emptyCompletion else Except.ok goodCompletion

/-- A request addressed to a non-fallback model. -/
def reqOther : ChatRequest :=
  { model := "o3-mini", temperature := some (7/10), max_tokens := some 1000
    max_completion_tokens := none }

/-- An HTTP oracle failing every attempt with a plain 500 server error (axios
message `Request failed with status code 500`, no `data.error` payload). -/
def oracle500 : Nat → AxiosOutcome Unit := fun _ =>
  AxiosOutcome.failure "Request failed with status code 500"
    (some { status := 500, dataError := none })

/-- An HTTP oracle failing every attempt with the axios 30-second timeout
error. -/
def oracleTimeout : Nat → AxiosOutcome Unit := fun _ =>
  AxiosOutcome.failure "timeout of 30000ms exceeded" none

/-! ## Helper lemmas -/

theorem lastTwo_some_length {l : List ExpertResponse} {a b : ExpertResponse}
    (h : lastTwo l = some (a, b)) : 2 ≤ l.length := by
  unfold lastTwo at h
  have hlen : l.reverse.length = l.length := List.length_reverse l
  cases hrev : l.reverse with
  | nil => rw [hrev] at h; simp at h
  | cons x t =>
    cases t with
    | nil => rw [hrev] at h; simp at h
    | cons y t2 =>
      rw [hrev] at hlen
      simp at hlen
      omega

theorem wordOverlapStable_self {s : String} (h : tokenSet s ≠ []) :
    wordOverlapStable s s = true := by
  unfold wordOverlapStable
  have hfilter : (tokenSet s).filter (fun w => (tokenSet s).contains w) = tokenSet s := by
    apply List.filter_eq_self.mpr
    intro w hw
    simpa using hw
  simp only [hfilter, max_self]
  have hn : (tokenSet s).length ≠ 0 := by
    intro h0
    exact h (List.length_eq_zero.mp h0)
  have hq : ((tokenSet s).length : ℚ) ≠ 0 := by exact_mod_cast hn
  rw [div_self hq]
  norm_num

theorem wordOverlapStable_disjoint {s t : String}
    (h : ∀ w ∈ tokenSet s, w ∉ tokenSet t) : wordOverlapStable s t = false := by
  unfold wordOverlapStable
  have hfilter : (tokenSet s).filter (fun w => (tokenSet t).contains w) = [] := by
    rw [List.filter_eq_nil_iff]
    intro w hw
    simpa using h w hw
  simp only [hfilter, List.length_nil, Nat.cast_zero, zero_div]
  norm_num

/-! ## C2 -/

/-- C2 (code_bug evidence): `synthesizeRound` computes `average_confidence` as
the arithmetic mean of the round's expert confidence scores for a non-empty
round, but the zero-expert case is *not* guarded: the source divides `0 / 0`,
producing `NaN` (modelled as `none`) rather than a defined value such as 0. -/
theorem averageConfidence_mean_and_nan :
    roundAverageConfidence [] = none ∧
    ∀ (r : ExpertResponse) (rs : List ExpertResponse),
      roundAverageConfidence (r :: rs) =
        some ((((r :: rs).map (fun x => x.confidence)).sum) / (((r :: rs).length : ℕ) : ℚ)) := by
  constructor
  · rfl
  · intro r rs
    simp [roundAverageConfidence, averageConfidence]

/-! ## C6 -/

/-- C6 (counterexample): in a reachable tracker state with one recorded round
and zero experts with any history (all experts failed), `citation_overlap` is
0, not the claimed 1.0. -/
theorem citationOverlap_zero_experts :
    calculateCitationOverlap (addRound TrackerState.init (synEmpty 1) []) = 0 ∧
    (0 : ℚ) ≠ 1 := by
  constructor
  · rfl
  · norm_num

/-- C6 (amended): `citation_overlap` is 0 when no expert is tracked; it is 1.0
when at least one expert is tracked but fewer than 2 experts have any recorded
history; and for exactly two experts with history it is binary — 1 when their
most recent responses' URL sets intersect at all, 0 when they share no URL. -/
theorem citationOverlap_amended :
    (∀ st : TrackerState, st.expertHistories = [] → calculateCitationOverlap st = 0) ∧
    (∀ st : TrackerState, st.expertHistories ≠ [] → (expertCitationsOf st).length < 2 →
      calculateCitationOverlap st = 1) ∧
    (∀ (ida idb : String) (la lb : List ExpertResponse) (rh : List RoundSynthesis)
        (ra rb : ExpertResponse),
      la.getLast? = some ra → lb.getLast? = some rb →
      calculateCitationOverlap { roundHistory := rh, expertHistories := [(ida, la), (idb, lb)] } =
        if setsIntersect ((ra.sources.map (fun c => c.url)).dedup)
            ((rb.sources.map (fun c => c.url)).dedup) then 1 else 0) := by
  refine ⟨?_, ?_, ?_⟩
  · intro st hE
    simp [calculateCitationOverlap, hE]
  · intro st hne hlt
    have hlen : st.expertHistories.length ≠ 0 := by
      intro h0
      exact hne (List.length_eq_zero.mp h0)
    simp [calculateCitationOverlap, hlen, hlt]
  · intro ida idb la lb rh ra rb hra hrb
    have hcne : expertCitationsOf
        { roundHistory := rh, expertHistories := [(ida, la), (idb, lb)] } =
        [ra.sources.map (fun source =>
            { title := source.title, url := source.url, date := jsOrUndefined source.date
              relevance := jsOrUndefined source.relevance }),
          rb.sources.map (fun source =>
            { title := source.title, url := source.url, date := jsOrUndefined source.date
              relevance := jsOrUndefined source.relevance })] := by
      simp [expertCitationsOf, latestCitations, hra, hrb]
    have hurlA : urlSet (ra.sources.map (fun source =>
        ({ title := source.title, url := source.url, date := jsOrUndefined source.date
           relevance := jsOrUndefined source.relevance } : Citation))) =
        (ra.sources.map (fun c => c.url)).dedup := by
      simp only [urlSet, List.map_map]
      rfl
    have hurlB : urlSet (rb.sources.map (fun source =>
        ({ title := source.title, url := source.url, date := jsOrUndefined source.date
           relevance := jsOrUndefined source.relevance } : Citation))) =
        (rb.sources.map (fun c => c.url)).dedup := by
      simp only [urlSet, List.map_map]
      rfl
    simp only [calculateCitationOverlap, hcne]
    norm_num [countTotalPairs, countOverlappingPairs, List.countP_cons, List.countP_nil,
      hurlA, hurlB]

/-- C6 (witness): the spec's own two-expert examples — `A = [u1, u2]` versus
`B = [u3]` gives 0.0; `B = [u1, u4]` gives 1.0. -/
theorem citationOverlap_amended_witness :
    calculateCitationOverlap stDisjointUrls = 0 ∧ calculateCitationOverlap stSharedUrls = 1 := by
  constructor
  · have h := citationOverlap_amended.2.2 "expert-a" "expert-b"
      [respA [citeU1, citeU2]] [respB [citeU3]] [synEmpty 1]
      (respA [citeU1, citeU2]) (respB [citeU3]) rfl rfl
    exact h.trans (by decide)
  · have h := citationOverlap_amended.2.2 "expert-a" "expert-b"
      [respA [citeU1, citeU2]] [respB [citeU1, citeU4]] [synEmpty 1]
      (respA [citeU1, citeU2]) (respB [citeU1, citeU4]) rfl rfl
    exact h.trans (by decide)

/-! ## C7 -/

/-- C7 (counterexample): a schema-valid expert submits the identical position
`"aa bbb ccc dd"` in two consecutive rounds; every word has at most 3
characters, so both token sets are empty, the source computes `0/0` (`NaN`),
the `> 0.7` test fails, and `position_stability` is 0 — not the claimed
1.0. -/
theorem positionStability_identical_short_words :
    validExpertResponse shortWordResp = true ∧
    stShortWords.roundHistory.length = 2 ∧
    tokenSet shortWordResp.position = [] ∧
    calculatePositionStability stShortWords = 0 ∧
    (0 : ℚ) ≠ 1 := by
  refine ⟨by decide, by decide, by decide, ?_, by norm_num⟩
  have hfalse : wordOverlapStable shortWordResp.position shortWordResp.position = false :=
    wordOverlapStable_disjoint (by decide)
  have hstate : stShortWords =
      { roundHistory := [synEmpty 1, synEmpty 2]
        expertHistories := [("expert-a", [shortWordResp, shortWordResp])] } := rfl
  rw [hstate]
  norm_num [calculatePositionStability, List.filter, stableCheck, lastTwo, hfalse]

/-- C7 (amended): with at least 2 rounds recorded and at least one tracked
expert, each with at least two recorded responses: if every expert's two most
recent positions are identical *and contain at least one word longer than 3
characters*, `position_stability` is 1.0; if every expert's two most recent
positions have disjoint token vocabularies it is 0.0.  (Identical positions
whose words are all at most 3 characters long yield an empty token set, a
`NaN` ratio in the source, and count as unstable.) -/
theorem positionStability_amended :
    (∀ st : TrackerState, 2 ≤ st.roundHistory.length → st.expertHistories ≠ [] →
      (∀ p ∈ st.expertHistories, ∃ lastR prevR,
        lastTwo p.2 = some (lastR, prevR) ∧ lastR.position = prevR.position ∧
        tokenSet lastR.position ≠ []) →
      calculatePositionStability st = 1) ∧
    (∀ st : TrackerState, 2 ≤ st.roundHistory.length → st.expertHistories ≠ [] →
      (∀ p ∈ st.expertHistories, ∃ lastR prevR,
        lastTwo p.2 = some (lastR, prevR) ∧
        ∀ w ∈ tokenSet lastR.position, w ∉ tokenSet prevR.position) →
      calculatePositionStability st = 0) := by
  constructor
  · intro st h2 hne hall
    have hlt : ¬ st.roundHistory.length < 2 := by omega
    have heligible : st.expertHistories.filter (fun p => p.2.length ≥ 2) =
        st.expertHistories := by
      apply List.filter_eq_self.mpr
      intro p hp
      obtain ⟨lastR, prevR, hl2, _, _⟩ := hall p hp
      simpa using lastTwo_some_length hl2
    have hstable : st.expertHistories.filter stableCheck = st.expertHistories := by
      apply List.filter_eq_self.mpr
      intro p hp
      obtain ⟨lastR, prevR, hl2, hpos, htok⟩ := hall p hp
      unfold stableCheck
      rw [hl2]
      show wordOverlapStable lastR.position prevR.position = true
      rw [hpos]
      exact wordOverlapStable_self (hpos ▸ htok)
    have hlen : 0 < st.expertHistories.length := List.length_pos.mpr hne
    have hq : (st.expertHistories.length : ℚ) ≠ 0 := by
      exact_mod_cast Nat.pos_iff_ne_zero.mp hlen
    simp only [calculatePositionStability, if_neg hlt, heligible, hstable]
    rw [if_pos hlen, div_self hq]
  · intro st h2 hne hall
    have hlt : ¬ st.roundHistory.length < 2 := by omega
    have heligible : st.expertHistories.filter (fun p => p.2.length ≥ 2) =
        st.expertHistories := by
      apply List.filter_eq_self.mpr
      intro p hp
      obtain ⟨lastR, prevR, hl2, _⟩ := hall p hp
      simpa using lastTwo_some_length hl2
    have hstable : st.expertHistories.filter stableCheck = [] := by
      rw [List.filter_eq_nil_iff]
      intro p hp
      obtain ⟨lastR, prevR, hl2, hdisj⟩ := hall p hp
      unfold stableCheck
      rw [hl2]
      show ¬ (wordOverlapStable lastR.position prevR.position = true)
      simp [wordOverlapStable_disjoint hdisj]
    have hlen : 0 < st.expertHistories.length := List.length_pos.mpr hne
    simp only [calculatePositionStability, if_neg hlt, heligible, hstable]
    rw [if_pos hlen]
    simp

/-- C7 (witness): the amended statement applied to one expert with identical
ordinary positions (stability 1.0) and to one expert with disjoint-vocabulary
positions (stability 0.0). -/
theorem positionStability_amended_witness :
    calculatePositionStability stIdentical = 1 ∧
    calculatePositionStability stChanged = 0 := by
  constructor
  · apply positionStability_amended.1 stIdentical (by decide) (by decide)
    intro p hp
    have hpeq : p = ("expert-a", [okResp, okResp]) := by
      simpa [stIdentical] using hp
    subst hpeq
    exact ⟨okResp, okResp, rfl, rfl, by decide⟩
  · apply positionStability_amended.2 stChanged (by decide) (by decide)
    intro p hp
    have hpeq : p = ("expert-a", [okResp, otherResp]) := by
      simpa [stChanged] using hp
    subst hpeq
    exact ⟨otherResp, okResp, rfl, by decide⟩

/-! ## C8 -/

/-- C8 (counterexample): a round with 5 experts, 1 cluster containing all 5
expert ids, an empty divergence list and average confidence 8 — but no
consensus areas — has `consensus_clarity` 0.54, not the claimed 0.94: the
claim's concrete instance additionally requires a non-empty consensus-areas
list. -/
theorem consensusClarity_without_consensus_areas :
    syn54.clusters = [cluster5] ∧ syn54.divergence_areas = [] ∧
    syn54.average_confidence = 8 ∧ syn54.participation_count = 5 ∧
    syn54.consensus_areas = [] ∧
    calculateConsensusClarity st54 = 27/50 ∧ (27 : ℚ)/50 ≠ 47/50 := by
  refine ⟨rfl, rfl, rfl, rfl, rfl, ?_, by norm_num⟩
  norm_num [calculateConsensusClarity, st54, syn54, syn94, cluster5]

/-- C8 (amended): `consensus_clarity` is computed on the latest round only as
`0.4 * (consensus / max(1, consensus + divergence)) + 0.3 * (largest cluster
size / max(1, participation)) + 0.3 * (average confidence / 10)`; the 0.94
instance holds for the claimed round *provided it also has at least one
consensus area* (witness below). -/
theorem consensusClarity_formula :
    ∀ (st : TrackerState) (currentRound : RoundSynthesis),
      st.roundHistory.getLast? = some currentRound →
      calculateConsensusClarity st =
        (4/10) * ((currentRound.consensus_areas.length : ℚ) /
          ((max 1 (currentRound.consensus_areas.length + currentRound.divergence_areas.length) : ℕ) : ℚ))
        + (3/10) * ((((currentRound.clusters.map (fun c => c.expert_ids.length)).foldl max 0 : ℕ) : ℚ) /
          (((max 1 currentRound.participation_count : ℕ) : ℚ)))
        + (3/10) * (currentRound.average_confidence / 10) := by
  intro st currentRound h
  simp only [calculateConsensusClarity, h]
  push_cast [Nat.cast_max]
  ring

/-- C8 (witness): the formula theorem applied to the scenario round with one
consensus area evaluates to `47/50 = 0.94`. -/
theorem consensusClarity_formula_witness :
    st94.roundHistory.getLast? = some syn94 ∧ calculateConsensusClarity st94 = 47/50 := by
  refine ⟨rfl, ?_⟩
  rw [consensusClarity_formula st94 syn94 rfl]
  norm_num [syn94, cluster5]

/-! ## C3 -/

theorem processOneCluster_some {rawCluster : RawCluster}
    {expertResponses : List ExpertResponse} {c : ExpertCluster}
    (h : processOneCluster rawCluster expertResponses = some c) :
    rawCluster.expert_ids = some c.expert_ids ∧
    ∃ r ∈ expertResponses, r.agent_id ∈ c.expert_ids := by
  unfold processOneCluster at h
  cases htheme : rawCluster.theme with
  | none => simp only [htheme] at h; exact absurd h (by simp)
  | some theme =>
    cases hids : rawCluster.expert_ids with
    | none => simp only [htheme, hids] at h; exact absurd h (by simp)
    | some ids =>
      simp only [htheme, hids] at h
      by_cases hempty : theme = ""
      · rw [if_pos hempty] at h; exact absurd h (by simp)
      · rw [if_neg hempty] at h
        cases hfil : expertResponses.filter (fun response => ids.contains response.agent_id) with
        | nil => rw [hfil] at h; simp at h
        | cons e es =>
          rw [hfil] at h
          simp only [List.map_cons, Option.some.injEq] at h
          have hcids : c.expert_ids = ids := by rw [← h]
          have hmem : e ∈ expertResponses.filter
              (fun response => ids.contains response.agent_id) := by
            rw [hfil]; exact List.mem_cons_self e es
          rw [List.mem_filter] at hmem
          refine ⟨by rw [hcids], e, hmem.1, ?_⟩
          rw [hcids]
          simpa using hmem.2

/-- C3 (counterexample): a raw cluster naming the real expert `expert-a` and
the non-existent id `ghost` is *kept*, with `ghost` still inside its
`expert_ids` — the processed cluster's ids are not a subset of the round's
actual agent ids. -/
theorem processClusters_keeps_ghost_ids :
    ¬ (∀ c ∈ processClusters [rawGhost] [respA [citeU1]],
        ∀ i ∈ c.expert_ids, i ∈ ([respA [citeU1]].map (fun r => r.agent_id))) := by
  intro hsub
  have hc : ∃ c ∈ processClusters [rawGhost] [respA [citeU1]], "ghost" ∈ c.expert_ids := by decide
  obtain ⟨c, hcmem, hghost⟩ := hc
  have := hsub c hcmem "ghost" hghost
  simp [respA] at this

/-- C3 (amended): a cluster sharing *no* expert id with the round's responses
is dropped entirely; a kept cluster always has at least one id matching a real
response, but its `expert_ids` list is the raw generation output verbatim and
may still contain ids absent from the round. -/
theorem processClusters_amended :
    (∀ (rawClusters : List RawCluster) (expertResponses : List ExpertResponse)
        (c : ExpertCluster), c ∈ processClusters rawClusters expertResponses →
      ∃ r ∈ expertResponses, r.agent_id ∈ c.expert_ids) ∧
    (∀ (rawClusters : List RawCluster) (expertResponses : List ExpertResponse)
        (c : ExpertCluster), c ∈ processClusters rawClusters expertResponses →
      ∃ raw ∈ rawClusters, raw.expert_ids = some c.expert_ids) := by
  constructor
  · intro rawClusters expertResponses c hc
    rw [processClusters, List.mem_filterMap] at hc
    obtain ⟨raw, _, hone⟩ := hc
    exact (processOneCluster_some hone).2
  · intro rawClusters expertResponses c hc
    rw [processClusters, List.mem_filterMap] at hc
    obtain ⟨raw, hraw, hone⟩ := hc
    exact ⟨raw, hraw, (processOneCluster_some hone).1⟩

/-- C3 (witness): the amended statement applied to the ghost cluster: the kept
cluster contains the real `expert-a` and its ids come verbatim from the raw
cluster. -/
theorem processClusters_amended_witness :
    (∃ r ∈ [respA [citeU1]],
      r.agent_id ∈ (ExpertCluster.expert_ids
        { theme := "T", positions := ["first expert position about the question"]
          expert_ids := ["expert-a", "ghost"], confidence_range := (7, 7)
          supporting_sources := [{ title := "S1", url := "https://example.com/u1"
                                   date := none, relevance := some "Supporting evidence" }] })) ∧
    (∃ raw ∈ [rawGhost], raw.expert_ids = some ["expert-a", "ghost"]) := by
  constructor
  · exact processClusters_amended.1 [rawGhost] [respA [citeU1]] _ (by decide)
  · exact processClusters_amended.2 [rawGhost] [respA [citeU1]]
      { theme := "T", positions := ["first expert position about the question"]
        expert_ids := ["expert-a", "ghost"], confidence_range := (7, 7)
        supporting_sources := [{ title := "S1", url := "https://example.com/u1"
                                 date := none, relevance := some "Supporting evidence" }] }
      (by decide)

/-! ## C4 -/

/-- C4 (counterexample): one round whose synthesis has *no clusters at all* and
one successful expert — the claim says `dissenting_views` must then be empty,
but the code treats every response as outside the (empty) largest cluster and
lists the expert as dissenting. -/
theorem dissentingViews_nonempty_without_clusters :
    rrNoCluster.synthesis.clusters = [] ∧
    reportDissentingViews [rrNoCluster] = [mkDissentView (respA [citeU1])] ∧
    ([mkDissentView (respA [citeU1])] : List DissentView) ≠ [] := by
  refine ⟨rfl, rfl, by simp⟩

/-- C4 (amended): `dissenting_views` is `identifyDissentingViews` applied to
the final round's synthesis but to the concatenation of **all** rounds' expert
responses; each response whose `agent_id` is absent from the final synthesis's
largest cluster contributes one entry, and when the final synthesis has no
clusters every response of every round is listed (empty only when there are no
responses at all). -/
theorem reportDissentingViews_amended :
    (∀ (roundResults : List RoundResult) (finalRound : RoundResult),
      roundResults.getLast? = some finalRound →
      reportDissentingViews roundResults =
        ((roundResults.foldr (fun r acc => r.expertResponses ++ acc) []).filter
          (fun response =>
            !(largestClusterIds finalRound.synthesis).contains response.agent_id)).map
          mkDissentView) ∧
    (∀ (roundResults : List RoundResult) (finalRound : RoundResult),
      roundResults.getLast? = some finalRound →
      finalRound.synthesis.clusters = [] →
      reportDissentingViews roundResults =
        (roundResults.foldr (fun r acc => r.expertResponses ++ acc) []).map
          mkDissentView) := by
  have hmain : ∀ (roundResults : List RoundResult) (finalRound : RoundResult),
      roundResults.getLast? = some finalRound →
      reportDissentingViews roundResults =
        ((roundResults.foldr (fun r acc => r.expertResponses ++ acc) []).filter
          (fun response =>
            !(largestClusterIds finalRound.synthesis).contains response.agent_id)).map
          mkDissentView := by
    intro roundResults finalRound hlast
    unfold reportDissentingViews identifyDissentingViews
    simp only [hlast]
    by_cases hzero :
      ((roundResults.foldr (fun r acc => r.expertResponses ++ acc) []).filter
        (fun response =>
          !(largestClusterIds finalRound.synthesis).contains response.agent_id)).length = 0
    · rw [if_pos hzero]
      rw [List.length_eq_zero] at hzero
      rw [hzero, List.map_nil]
    · rw [if_neg hzero]
  refine ⟨hmain, ?_⟩
  intro roundResults finalRound hlast hnoc
  rw [hmain roundResults finalRound hlast]
  have hids : largestClusterIds finalRound.synthesis = [] := by
    unfold largestClusterIds
    rw [hnoc]
  rw [hids]
  congr 1
  apply List.filter_eq_self.mpr
  intro r _
  rfl

/-- C4 (witness): the amended statement applied to the single
no-clusters round: the lone expert is listed as dissenting. -/
theorem reportDissentingViews_amended_witness :
    reportDissentingViews [rrNoCluster] =
      ([rrNoCluster].foldr (fun r acc => r.expertResponses ++ acc) []).map mkDissentView := by
  exact reportDissentingViews_amended.2 [rrNoCluster] rrNoCluster rfl rfl

/-! ## C9 -/

theorem insertByCmp_perm {α : Type} (cmp : α → α → ℚ) (x : α) :
    ∀ l : List α, (insertByCmp cmp x l).Perm (x :: l) := by
  intro l
  induction l with
  | nil => simp [insertByCmp]
  | cons y ys ih =>
    unfold insertByCmp
    by_cases hle : cmp y x ≤ 0
    · rw [if_pos hle]
      exact (List.Perm.cons y ih).trans (List.Perm.swap x y ys)
    · rw [if_neg hle]

theorem foldl_insertByCmp_perm {α : Type} (cmp : α → α → ℚ) :
    ∀ (l acc : List α),
      (l.foldl (fun acc x => insertByCmp cmp x acc) acc).Perm (acc ++ l) := by
  intro l
  induction l with
  | nil => intro acc; simp
  | cons x xs ih =>
    intro acc
    have h1 := ih (insertByCmp cmp x acc)
    have h2 : (insertByCmp cmp x acc ++ xs).Perm ((x :: acc) ++ xs) :=
      (insertByCmp_perm cmp x acc).append_right xs
    have h3 : ((x :: acc) ++ xs).Perm (acc ++ x :: xs) := by
      simpa using List.perm_middle.symm
    simp only [List.foldl_cons]
    exact (h1.trans h2).trans h3

theorem jsStableSort_perm {α : Type} (cmp : α → α → ℚ) (l : List α) :
    (jsStableSort cmp l).Perm l := by
  unfold jsStableSort
  simpa using foldl_insertByCmp_perm cmp l []

/-- C9 (counterexample): `identifyDominantClusters` sorts the synthesis's
clusters array in place (`Array.prototype.sort`), so calling it on a stored
synthesis whose clusters are not already in dominant order reorders that
array: the synthesis object after the call differs from the one appended to
the round history. -/
theorem identifyDominantClusters_mutates_order :
    synOutOfOrder.clusters = [clusterSmall, clusterBig] ∧
    (identifyDominantClusters synOutOfOrder).2.clusters = [clusterBig, clusterSmall] ∧
    (identifyDominantClusters synOutOfOrder).2 ≠ synOutOfOrder := by
  have hsort : (identifyDominantClusters synOutOfOrder).2.clusters =
      [clusterBig, clusterSmall] := by
    norm_num [identifyDominantClusters, synOutOfOrder, jsStableSort, insertByCmp, clusterCmp,
      clusterSmall, clusterBig]
  refine ⟨rfl, hsort, ?_⟩
  intro heq
  have : ([clusterBig, clusterSmall] : List ExpertCluster) = [clusterSmall, clusterBig] := by
    rw [← hsort, heq]; rfl
  have hthemes := congrArg (fun l => l.map (fun c => c.theme)) this
  simp [clusterSmall, clusterBig] at hthemes

/-- C9 (amended): `addRound` only appends — every previously recorded
synthesis stays in the history unchanged; the tracker's metric computations
are pure functions of the state; but `identifyDominantClusters` reorders the
given synthesis's clusters array in place.  The mutation is limited to a
permutation of the clusters array: every other field of the synthesis is left
intact. -/
theorem roundSynthesis_history_amended :
    (∀ (st : TrackerState) (syn : RoundSynthesis) (rs : List ExpertResponse),
      (addRound st syn rs).roundHistory = st.roundHistory ++ [syn]) ∧
    (∀ s : RoundSynthesis,
      ((identifyDominantClusters s).2.clusters).Perm s.clusters ∧
      (identifyDominantClusters s).2.round_number = s.round_number ∧
      (identifyDominantClusters s).2.consensus_areas = s.consensus_areas ∧
      (identifyDominantClusters s).2.divergence_areas = s.divergence_areas ∧
      (identifyDominantClusters s).2.average_confidence = s.average_confidence ∧
      (identifyDominantClusters s).2.participation_count = s.participation_count ∧
      (identifyDominantClusters s).2.key_insights = s.key_insights) := by
  constructor
  · intro st syn rs
    rfl
  · intro s
    unfold identifyDominantClusters
    by_cases hz : s.clusters.length = 0
    · rw [if_pos hz]
      exact ⟨List.Perm.refl _, rfl, rfl, rfl, rfl, rfl, rfl⟩
    · rw [if_neg hz]
      exact ⟨jsStableSort_perm clusterCmp s.clusters, rfl, rfl, rfl, rfl, rfl, rfl⟩

/-! ## C1 -/

/-- C1 (counterexample): when the request's model is already the fallback
`gpt-4o` and the service answers with an empty `choices` array, `runOnce`
returns the empty response unvalidated and `safeChatCompletion` hands the
caller an empty-success result — no error is thrown and no usable text is
present. -/
theorem safeChatCompletion_returns_empty_success :
    (safeChatCompletion svcAlwaysEmpty reqFallback).1 = SafeOutcome.ok emptyCompletion ∧
    hasUsableText emptyCompletion = false := ⟨rfl, rfl⟩

theorem runOnce_empty_fallback (service : ChatService) (req : ChatRequest)
    (res res2 : ChatCompletion)
    (hne : req.model ≠ "") (hnf : req.model ≠ "gpt-4o")
    (h0 : service 0 req = Except.ok res) (hres : hasUsableText res = false)
    (h1 : service 1 { req with model := "gpt-4o" } = Except.ok res2) :
    runOnce service 0 req = (Except.ok res2, { req with model := "gpt-4o" }, 0 + 2) := by
  unfold runOnce
  simp only [h0]
  rw [if_neg (by simp [hres])]
  rw [if_pos ⟨hne, hnf⟩]
  simp only [h1]

theorem safeLoop_ok_step (service : ChatService) (attempt k : Nat)
    (caller r r1 : ChatRequest) (res : ChatCompletion) (k1 : Nat)
    (h : runOnce service k r = (Except.ok res, r1, k1)) :
    safeLoop service (attempt + 1) k caller r = (SafeOutcome.ok res, caller) := by
  unfold safeLoop
  simp [h]

/-- C1 (amended): when a response comes back with no usable text (empty
choices, no message, or empty/whitespace content) for a request whose model is
non-empty and not already `gpt-4o`, the wrapper retries exactly once against
`gpt-4o` and returns that second call's response to the caller *without
re-validating it* — so the caller may still receive an empty-success result
(see the counterexample for the model-already-`gpt-4o` case). -/
theorem safeChatCompletion_empty_retries_fallback :
    ∀ (service : ChatService) (req : ChatRequest) (res res2 : ChatCompletion),
      req.model ≠ "" → req.model ≠ "gpt-4o" →
      service 0 req = Except.ok res → hasUsableText res = false →
      service 1 { req with model := "gpt-4o" } = Except.ok res2 →
      (safeChatCompletion service req).1 = SafeOutcome.ok res2 := by
  intro service req res res2 hne hnf h0 hres h1
  unfold safeChatCompletion
  rw [safeLoop_ok_step service 4 0 req req { req with model := "gpt-4o" } res2 (0 + 2)
    (runOnce_empty_fallback service req res res2 hne hnf h0 hres h1)]

/-- C1 (witness): a service returning empty choices on the first call and a
usable completion on the second; a request for the non-fallback model
`o3-mini` yields the second call's completion. -/
theorem safeChatCompletion_empty_retries_fallback_witness :
    (safeChatCompletion svcEmptyThenGood reqOther).1 = SafeOutcome.ok goodCompletion := by
  exact safeChatCompletion_empty_retries_fallback svcEmptyThenGood reqOther
    emptyCompletion goodCompletion (by decide) (by decide) rfl rfl rfl

/-! ## C10 -/

theorem safeLoop_preserves_caller (service : ChatService) :
    ∀ (fuel k : Nat) (caller r : ChatRequest), (safeLoop service fuel k caller r).2 = caller := by
  intro fuel
  induction fuel with
  | zero => intro k caller r; rfl
  | succ n ih =>
    intro k caller r
    unfold safeLoop
    cases hrun : runOnce service k r with
    | mk fst rest =>
      cases fst with
      | ok res => simp [hrun]
      | error e =>
        cases rest with
        | mk r1 k1 =>
          simp only [hrun]
          cases hcls : classifyError e r1 <;> simp [hcls, ih]

/-- C10: on every outcome, the caller's request object is left unchanged —
all parameter removals, max-token renamings and fallback-model substitutions
are applied to the internal clone only, so after the call the caller's
`model`, `temperature`, `max_tokens` and `max_completion_tokens` fields hold
their original values. -/
theorem safeChatCompletion_preserves_caller_request :
    ∀ (service : ChatService) (req : ChatRequest),
      (safeChatCompletion service req).2 = req := by
  intro service req
  exact safeLoop_preserves_caller service 5 0 req req

/-! ## C5 -/

/-- C5 (code_bug evidence): a plain HTTP 500 failure is rewrapped by the axios
response interceptor into an `Error` without a `response` property, so the
`is5xx` retry test in `search`'s catch block never fires: the request fails on
the first attempt with no backoff sleep.  Timeout errors — whose wrapped
message still contains `'timeout'` — are retried with the 1s/2s backoff until
the 3 attempts are exhausted. -/
theorem perplexitySearch_no_retry_on_5xx :
    (perplexitySearch oracle500).calls = 1 ∧
    (perplexitySearch oracle500).sleeps = [] ∧
    (perplexitySearch oracle500).result = Except.error
      { message := "Perplexity API failed: Perplexity API failed: Request failed with status code 500"
        response := none } ∧
    (perplexitySearch oracleTimeout).calls = 3 ∧
    (perplexitySearch oracleTimeout).sleeps = [1000, 2000] := by
  exact ⟨rfl, rfl, rfl, rfl, rfl⟩

end Delphi
